import Mathlib

/-!
Verification development for the crowd-monitoring map dashboard.

The JavaScript sources are shallowly embedded: numbers become `ℚ`,
JS objects used as id-keyed dictionaries become association lists,
nullable values become `Option`, and DOM/network effects become
explicit state passing plus emitted intent lists.
-/

namespace MP

/-! ## Snapshot reconciler (`ws.onmessage`) -/

/-- A tracked entity as delivered in a snapshot message:
`{id, lat, lon, type, phase?, stop?}`. -/
structure Agent where
  id : String
  lat : ℚ
  lon : ℚ
  type : String
  phase : Option String
  stop : Bool
deriving DecidableEq, Repr

/-- Leaflet circle style options produced by `markerStyleFor`. -/
structure MarkerStyle where
  radius : ℚ
  weight : ℚ
  opacity : ℚ
  fillOpacity : ℚ
  color : String
  fillColor : String
deriving DecidableEq, Repr

def baseStyle : MarkerStyle :=
  { radius := 6, weight := 1, opacity := 9/10, fillOpacity := 7/10
    color := "", fillColor := "" }

/-- Embedding of `markerStyleFor(agent)`: colour precedence is
event phase > stopped > category > default. -/
def markerStyleFor (a : Agent) : MarkerStyle :=
  if a.type = "event" then
    match a.phase with
    | some "to_dest" => { baseStyle with color := "#ff9800", fillColor := "#ff9800" }
    | some "dwelling" => { baseStyle with color := "#e53935", fillColor := "#e53935" }
    | some "exiting" => { baseStyle with color := "#6a1b9a", fillColor := "#6a1b9a" }
    | some "settled" => { baseStyle with color := "#2e7d32", fillColor := "#2e7d32" }
    | _ => { baseStyle with color := "#ffb74d", fillColor := "#ffb74d" }
  else if a.stop then
    { baseStyle with color := "#0d47a1", fillColor := "#0d47a1" }
  else if a.type = "random" then
    { baseStyle with color := "#2d6cdf", fillColor := "#2d6cdf" }
  else
    { baseStyle with color := "#1976d2", fillColor := "#1976d2" }

/-- A live render handle for one entity (`agentMarkers[id]`). -/
structure AgentMarker where
  pos : ℚ × ℚ
  style : MarkerStyle
deriving DecidableEq, Repr

/-- The `agentMarkers` dictionary, as an id-keyed association list. -/
abbrev Markers := List (String × AgentMarker)

def markerKeys (ms : Markers) : List String := ms.map Prod.fst

def markerOf (a : Agent) : AgentMarker :=
  ⟨(a.lat, a.lon), markerStyleFor a⟩

/-- One iteration of the `agents.forEach` loop: update the existing
handle in place, or create (append) a new one.  The second component
counts create operations (0 or 1). -/
def upsertMarker (ms : Markers) (a : Agent) : Markers × Nat :=
  if ms.any (fun e => e.1 = a.id) then
    (ms.map (fun e => if e.1 = a.id then (e.1, markerOf a) else e), 0)
  else
    (ms ++ [(a.id, markerOf a)], 1)

/-- Result of applying one snapshot: the new dictionary plus the
number of handles created and destroyed while applying it. -/
structure ApplyResult where
  markers : Markers
  created : Nat
  destroyed : Nat
deriving DecidableEq, Repr

/-- Embedding of the `ws.onmessage` handler: upsert a handle for every
agent in the snapshot, then destroy every handle whose id is absent
from the snapshot's id set. -/
def applySnapshot (agents : List Agent) (ms : Markers) : ApplyResult :=
  let ids := agents.map (·.id)
  let folded := agents.foldl
    (fun acc a => let r := upsertMarker acc.1 a; (r.1, acc.2 + r.2)) (ms, 0)
  { markers := folded.1.filter (fun e => e.1 ∈ ids)
    created := folded.2
    destroyed := (folded.1.filter (fun e => e.1 ∉ ids)).length }

lemma markerKeys_upsert (ms : Markers) (a : Agent) (k : String) :
    k ∈ markerKeys (upsertMarker ms a).1 ↔ k ∈ markerKeys ms ∨ k = a.id := by
  unfold upsertMarker markerKeys
  by_cases h : ms.any (fun e => e.1 = a.id)
  · simp only [h, if_true]
    constructor
    · rintro hk
      rcases List.mem_map.1 hk with ⟨e, he, rfl⟩
      rcases List.mem_map.1 he with ⟨e', he', rfl⟩
      by_cases h' : e'.1 = a.id
      · simp [h']
      · simp only [h', if_false]
        exact Or.inl (List.mem_map.2 ⟨e', he', rfl⟩)
    · rintro (hk | rfl)
      · rcases List.mem_map.1 hk with ⟨e, he, rfl⟩
        refine List.mem_map.2 ⟨if e.1 = a.id then (e.1, markerOf a) else e, List.mem_map.2 ⟨e, he, rfl⟩, ?_⟩
        by_cases h' : e.1 = a.id <;> simp [h']
      · rcases List.any_eq_true.1 h with ⟨e, he, he'⟩
        simp only [decide_eq_true_eq] at he'
        refine List.mem_map.2 ⟨(e.1, markerOf a), List.mem_map.2 ⟨e, he, by simp [he']⟩, he'⟩
  · rw [if_neg h]
    simp only [List.map_append, List.mem_append, List.map_cons, List.map_nil,
      List.mem_cons, List.not_mem_nil, or_false]

lemma markerKeys_foldl (agents : List Agent) (ms : Markers) (n : Nat) (k : String) :
    k ∈ markerKeys (agents.foldl
      (fun acc a => let r := upsertMarker acc.1 a; (r.1, acc.2 + r.2)) (ms, n)).1 ↔
    k ∈ markerKeys ms ∨ k ∈ agents.map (·.id) := by
  induction agents generalizing ms n with
  | nil => simp
  | cons a rest ih =>
    simp only [List.foldl_cons, List.map_cons, List.mem_cons]
    rw [ih]
    rw [markerKeys_upsert]
    tauto

lemma mem_markerKeys_applySnapshot (agents : List Agent) (ms : Markers) (k : String) :
    k ∈ markerKeys (applySnapshot agents ms).markers ↔ k ∈ agents.map (·.id) := by
  unfold applySnapshot markerKeys
  constructor
  · intro hk
    rcases List.mem_map.1 hk with ⟨e, he, rfl⟩
    have := List.of_mem_filter he
    simpa using this
  · intro hk
    have hmem : k ∈ markerKeys ((agents.foldl
        (fun acc a => let r := upsertMarker acc.1 a; (r.1, acc.2 + r.2)) (ms, 0)).1) := by
      rw [markerKeys_foldl]; exact Or.inr hk
    rcases List.mem_map.1 hmem with ⟨e, he, rfl⟩
    exact List.mem_map.2 ⟨e, List.mem_filter.2 ⟨he, by simpa using hk⟩, rfl⟩

lemma markerKeys_update (ms : Markers) (i : String) (v : AgentMarker) :
    markerKeys (ms.map (fun e => if e.1 = i then (e.1, v) else e)) = markerKeys ms := by
  unfold markerKeys
  rw [List.map_map]
  congr 1
  funext e
  by_cases h : e.1 = i <;> simp [h]

lemma foldl_created_eq (agents : List Agent) (ms : Markers) (n : Nat)
    (h : ∀ ag ∈ agents, ag.id ∈ markerKeys ms) :
    (agents.foldl
      (fun acc a => let r := upsertMarker acc.1 a; (r.1, acc.2 + r.2)) (ms, n)).2 = n := by
  induction agents generalizing ms n with
  | nil => rfl
  | cons a rest ih =>
    have ha : ms.any (fun e => e.1 = a.id) = true := by
      have := h a (List.mem_cons_self a rest)
      rcases List.mem_map.1 this with ⟨e, he, hfst⟩
      exact List.any_eq_true.2 ⟨e, he, by simp [hfst]⟩
    rw [List.foldl_cons]
    have hstep : (let r := upsertMarker (ms, n).1 a; (r.1, (ms, n).2 + r.2)) =
        (ms.map (fun e => if e.1 = a.id then (e.1, markerOf a) else e), n) := by
      simp [upsertMarker, ha]
    rw [hstep]
    refine ih _ n (fun ag hag => ?_)
    rw [markerKeys_update]
    exact h ag (List.mem_cons_of_mem a hag)

/-- C1: for every snapshot and every prior dictionary of render
handles, immediately after `ws.onmessage` applies the snapshot the
set of ids holding a handle equals exactly the snapshot's id set,
and an empty snapshot destroys every handle. -/
theorem applySnapshot_rendered_ids (agents : List Agent) (ms : Markers) :
    (∀ k, k ∈ markerKeys (applySnapshot agents ms).markers ↔ k ∈ agents.map (·.id)) ∧
    markerKeys (applySnapshot ([] : List Agent) ms).markers = [] := by
  refine ⟨mem_markerKeys_applySnapshot agents ms, ?_⟩
  have h := mem_markerKeys_applySnapshot ([] : List Agent) ms
  simp only [List.map_nil, List.not_mem_nil, iff_false] at h
  exact List.eq_nil_iff_forall_not_mem.2 h

/-- C8: re-applying the snapshot just applied performs zero handle
creations and zero destructions — `ws.onmessage` is idempotent on the
rendered set. -/
theorem applySnapshot_idempotent_zero_ops (agents : List Agent) (ms : Markers) :
    (applySnapshot agents (applySnapshot agents ms).markers).created = 0 ∧
    (applySnapshot agents (applySnapshot agents ms).markers).destroyed = 0 := by
  set m1 := (applySnapshot agents ms).markers with hm1
  have hkeys : ∀ k, k ∈ markerKeys m1 ↔ k ∈ agents.map (·.id) :=
    mem_markerKeys_applySnapshot agents ms
  constructor
  · show (agents.foldl
      (fun acc a => let r := upsertMarker acc.1 a; (r.1, acc.2 + r.2)) (m1, 0)).2 = 0
    exact foldl_created_eq agents m1 0
      (fun ag hag => (hkeys ag.id).2 (List.mem_map.2 ⟨ag, hag, rfl⟩))
  · show ((agents.foldl
      (fun acc a => let r := upsertMarker acc.1 a; (r.1, acc.2 + r.2)) (m1, 0)).1.filter
        (fun e => e.1 ∉ agents.map (·.id))).length = 0
    rw [List.length_eq_zero]
    rw [List.filter_eq_nil_iff]
    intro e he
    have : e.1 ∈ markerKeys ((agents.foldl
        (fun acc a => let r := upsertMarker acc.1 a; (r.1, acc.2 + r.2)) (m1, 0)).1) :=
      List.mem_map.2 ⟨e, he, rfl⟩
    rw [markerKeys_foldl] at this
    have hin : e.1 ∈ agents.map (·.id) := by
      rcases this with h | h
      · exact (hkeys e.1).1 h
      · exact h
    simp [hin]

/-! ## Interaction-mode controller and route-selection flow -/

/-- A Leaflet lat/lng pair. -/
structure Coord where
  lat : ℚ
  lng : ℚ
deriving DecidableEq, Repr

/-- The `selecting` variable: `'source' | 'dest' | null`. -/
inductive SelMode where
  | source
  | dest
deriving DecidableEq, Repr

/-- The `infraMode` variable: `'gateway' | 'tower' | 'toll' | null`. -/
inductive InfraKind where
  | gateway
  | tower
  | toll
deriving DecidableEq, Repr

/-- Outbound requests emitted by the click handler. -/
inductive Intent where
  | addGateway (lon lat : ℚ)
  | addTower (lon lat radius : ℚ)
  | addToll (lon lat : ℚ) (fee : Option ℚ)
  | routePreview (number : ℚ) (sourceLat sourceLon destLat destLon : ℚ)
deriving DecidableEq, Repr

/-- The page's mutable interaction state.  `towerRadiusValue` and
`tollFeeValue` hold `parseFloat` of the corresponding text inputs
(`none` for `NaN`); `pending` holds the (source, dest) payloads of
dispatched route-preview requests that have not yet resolved. -/
structure UIState where
  selecting : Option SelMode := none
  sourceLatLng : Option Coord := none
  destLatLng : Option Coord := none
  sourceMarker : Bool := false
  destMarker : Bool := false
  routeLine : Option (List (ℚ × ℚ)) := none
  infraMode : Option InfraKind := none
  srcBtnActive : Bool := false
  dstBtnActive : Bool := false
  activeInfraBtn : Option InfraKind := none
  towerRadiusValue : Option ℚ := none
  tollFeeValue : Option ℚ := none
  pending : List (Coord × Coord) := []
deriving DecidableEq, Repr

def initState : UIState := {}

/-- JS `x || d` on a number: `NaN` and `0` are falsy. -/
def jsOr (p : Option ℚ) (d : ℚ) : ℚ :=
  match p with
  | none => d
  | some q => if q = 0 then d else q

/-- JS `x || null` on a number: `NaN` and `0` both become `null`. -/
def jsOrNull (p : Option ℚ) : Option ℚ :=
  match p with
  | none => none
  | some q => if q = 0 then none else some q

/-- The place-infrastructure request emitted for one click in
`PlacingInfra(kind)` (the `infraMode` branch of `map.on('click')`).
The tower radius is `parseFloat(towerRadiusInput.value) || 0.01`; the
toll fee is `parseFloat(tollFeeInput.value) || null`. -/
def infraPlaceIntent (k : InfraKind) (c : Coord)
    (towerRadiusValue tollFeeValue : Option ℚ) : Intent :=
  match k with
  | .gateway => .addGateway c.lng c.lat
  | .tower => .addTower c.lng c.lat (jsOr towerRadiusValue (1/100))
  | .toll => .addToll c.lng c.lat (jsOrNull tollFeeValue)

/-- Embedding of the `map.on('click')` handler.  Returns the new state
and the list of requests the handler dispatched. -/
def mapClick (s : UIState) (c : Coord) : UIState × List Intent :=
  match s.infraMode with
  | some k =>
      -- placement branch: emit the add intent and return early,
      -- remaining in the placement mode
      (s, [infraPlaceIntent k c s.towerRadiusValue s.tollFeeValue])
  | none =>
    if s.selecting = some .source ∨ (s.sourceLatLng = none ∧ s.selecting = none) then
      let s1 : UIState := { s with sourceLatLng := some c, sourceMarker := true }
      let s2 : UIState :=
        if s.destLatLng ≠ none then
          { s1 with destLatLng := none, destMarker := false, routeLine := none }
        else s1
      ({ s2 with selecting := none, srcBtnActive := false, dstBtnActive := false }, [])
    else if s.selecting = some .dest ∨ (s.destLatLng = none ∧ s.sourceLatLng ≠ none) then
      let s1 : UIState := { s with destLatLng := some c, destMarker := true }
      match s.sourceLatLng with
      | some src =>
          ({ s1 with
              selecting := none, srcBtnActive := false, dstBtnActive := false
              pending := s.pending ++ [(src, c)] },
           [.routePreview 1 src.lat src.lng c.lat c.lng])
      | none =>
          -- with no source set, reading `sourceLatLng.lat` throws a
          -- TypeError, aborting the handler before the mode reset
          (s1, [])
    else
      ({ s with
          sourceLatLng := some c, sourceMarker := true, destLatLng := none
          destMarker := false, routeLine := none, selecting := none
          srcBtnActive := false, dstBtnActive := false }, [])

/-- Embedding of `clearRouteSelection()`. -/
def clearRouteSelection (s : UIState) : UIState :=
  { s with
    sourceMarker := false, destMarker := false, routeLine := none
    sourceLatLng := none, destLatLng := none, selecting := none }

/-- Embedding of the `selectSourceBtn` click handler. -/
def selectSourceClick (s : UIState) : UIState :=
  { s with selecting := some .source, srcBtnActive := true, dstBtnActive := false }

/-- Embedding of the `selectDestBtn` click handler. -/
def selectDestClick (s : UIState) : UIState :=
  { s with selecting := some .dest, dstBtnActive := true, srcBtnActive := false }

/-- Embedding of `setInfraMode(mode)` (also used by the cancel button
with `mode = null`). -/
def setInfraMode (s : UIState) (m : Option InfraKind) : UIState :=
  { s with infraMode := m, activeInfraBtn := m }

/-- Embedding of the `.then(data => ...)` continuation of the
route-preview fetch: on `data.ok` the returned `[lon,lat]` points are
flipped and replace the preview polyline; otherwise (and on transport
error) nothing is drawn. -/
def routePreviewResponse (s : UIState) (req : Coord × Coord) (ok : Bool)
    (points : List (ℚ × ℚ)) : UIState :=
  let s1 : UIState := { s with pending := s.pending.erase req }
  if ok then { s1 with routeLine := some (points.map (fun p => (p.2, p.1))) } else s1

/-- User-visible events of the interaction surface, including the
arrival of a route-preview response. -/
inductive UEvent where
  | click (c : Coord)
  | selSourceBtn
  | selDestBtn
  | infraBtn (m : Option InfraKind)
  | clearRouteBtn
  | respond (req : Coord × Coord) (ok : Bool) (points : List (ℚ × ℚ))
deriving DecidableEq, Repr

def stepEvent (s : UIState) : UEvent → UIState × List Intent
  | .click c => mapClick s c
  | .selSourceBtn => (selectSourceClick s, [])
  | .selDestBtn => (selectDestClick s, [])
  | .infraBtn m => (setInfraMode s m, [])
  | .clearRouteBtn => (clearRouteSelection s, [])
  | .respond req ok pts => (routePreviewResponse s req ok pts, [])

def runEvents (s : UIState) : List UEvent → UIState
  | [] => s
  | e :: rest => runEvents (stepEvent s e).1 rest

/-- C2: the forgiving two-click flow.  From Idle with no source and no
destination: the first click sets the source and stays Idle; the second
click sets the destination, dispatches a preview request for
(source, destination) and stays Idle; the third click resets — new
source, destination cleared, preview cleared. -/
theorem two_click_flow (s : UIState) (A B C : Coord)
    (hinfra : s.infraMode = none) (hsel : s.selecting = none)
    (hsrc : s.sourceLatLng = none) (hdst : s.destLatLng = none) :
    ((mapClick s A).2 = [] ∧
     (mapClick s A).1.sourceLatLng = some A ∧
     (mapClick s A).1.destLatLng = none ∧
     (mapClick s A).1.selecting = none) ∧
    ((mapClick (mapClick s A).1 B).2 = [Intent.routePreview 1 A.lat A.lng B.lat B.lng] ∧
     (mapClick (mapClick s A).1 B).1.sourceLatLng = some A ∧
     (mapClick (mapClick s A).1 B).1.destLatLng = some B ∧
     (mapClick (mapClick s A).1 B).1.selecting = none) ∧
    ((mapClick (mapClick (mapClick s A).1 B).1 C).1.sourceLatLng = some C ∧
     (mapClick (mapClick (mapClick s A).1 B).1 C).1.destLatLng = none ∧
     (mapClick (mapClick (mapClick s A).1 B).1 C).1.routeLine = none ∧
     (mapClick (mapClick (mapClick s A).1 B).1 C).1.selecting = none) := by
  simp [mapClick, hinfra, hsel, hsrc, hdst]

/-- C2 witness: the two-click flow at the initial state with clicks at
(0,0), (1,1), (2,2). -/
theorem two_click_flow_witness :
    (initState.infraMode = none ∧ initState.selecting = none ∧
     initState.sourceLatLng = none ∧ initState.destLatLng = none) ∧
    ((mapClick (mapClick (mapClick initState ⟨0,0⟩).1 ⟨1,1⟩).1 ⟨2,2⟩).1.sourceLatLng = some ⟨2,2⟩ ∧
     (mapClick (mapClick (mapClick initState ⟨0,0⟩).1 ⟨1,1⟩).1 ⟨2,2⟩).1.destLatLng = none ∧
     (mapClick (mapClick (mapClick initState ⟨0,0⟩).1 ⟨1,1⟩).1 ⟨2,2⟩).1.routeLine = none ∧
     (mapClick (mapClick (mapClick initState ⟨0,0⟩).1 ⟨1,1⟩).1 ⟨2,2⟩).1.selecting = none) :=
  ⟨⟨rfl, rfl, rfl, rfl⟩,
   (two_click_flow initState ⟨0,0⟩ ⟨1,1⟩ ⟨2,2⟩ rfl rfl rfl rfl).2.2⟩

/-- C3 counterexample: the request (A,B) is dispatched while the
selection is (A,B); a further click changes the selection to
(C, none) before the response arrives, yet the `ok` response still
renders as the preview path — there is no stale-response guard. -/
theorem stale_preview_response_renders :
    (runEvents initState [.click ⟨0,0⟩, .click ⟨1,1⟩]).pending = [(⟨0,0⟩, ⟨1,1⟩)] ∧
    (runEvents initState [.click ⟨0,0⟩, .click ⟨1,1⟩]).sourceLatLng = some ⟨0,0⟩ ∧
    (runEvents initState [.click ⟨0,0⟩, .click ⟨1,1⟩]).destLatLng = some ⟨1,1⟩ ∧
    (runEvents initState [.click ⟨0,0⟩, .click ⟨1,1⟩, .click ⟨2,2⟩]).sourceLatLng = some ⟨2,2⟩ ∧
    (runEvents initState [.click ⟨0,0⟩, .click ⟨1,1⟩, .click ⟨2,2⟩]).destLatLng = none ∧
    (runEvents initState [.click ⟨0,0⟩, .click ⟨1,1⟩, .click ⟨2,2⟩,
        .respond (⟨0,0⟩, ⟨1,1⟩) true [(5,5)]]).routeLine = some [((5 : ℚ), (5 : ℚ))] := by
  decide

/-- C3 amended: the response handler has no stale-response guard — a
successful route-preview response always replaces the rendered preview
with its points, whatever the selection is at arrival; only a
non-`ok` (or failed) response leaves the preview untouched. -/
theorem preview_response_no_guard (s : UIState) (req : Coord × Coord)
    (pts : List (ℚ × ℚ)) :
    (routePreviewResponse s req true pts).routeLine = some (pts.map (fun p => (p.2, p.1))) ∧
    (routePreviewResponse s req false pts).routeLine = s.routeLine :=
  ⟨rfl, rfl⟩

/-- C4 counterexample: (trace 1) after a preview for (A,B) is rendered,
selecting a new destination C leaves the stale preview rendered — the
destination changed with no synchronous clear; (trace 2) a late
response renders a preview while the destination is unset. -/
theorem preview_invariant_violations :
    (let t1 := runEvents initState [.click ⟨0,0⟩, .click ⟨1,1⟩,
        .respond (⟨0,0⟩, ⟨1,1⟩) true [(5,5)], .selDestBtn, .click ⟨2,2⟩]
     t1.destLatLng = some ⟨2,2⟩ ∧ t1.routeLine = some [((5 : ℚ), (5 : ℚ))]) ∧
    (let t2 := runEvents initState [.click ⟨0,0⟩, .click ⟨1,1⟩, .click ⟨2,2⟩,
        .respond (⟨0,0⟩, ⟨1,1⟩) true [(5,5)]]
     t2.destLatLng = none ∧ t2.routeLine = some [((5 : ℚ), (5 : ℚ))]) := by
  decide

/-- C4 amended: the synchronous clears that do hold: `clearRouteSelection`
clears the preview; a click that re-picks the source while a destination
is set clears the destination and the preview; the reset click (both
set, no explicit mode) clears the destination and the preview.  (Setting
a new destination does not clear an already-rendered preview, and a
late response can render a preview while the destination is unset.) -/
theorem preview_sync_clear (s : UIState) (c : Coord) :
    ((clearRouteSelection s).routeLine = none ∧ (clearRouteSelection s).destLatLng = none) ∧
    (s.infraMode = none →
      (s.selecting = some SelMode.source ∨ (s.sourceLatLng = none ∧ s.selecting = none)) →
      s.destLatLng ≠ none →
      ((mapClick s c).1.routeLine = none ∧ (mapClick s c).1.destLatLng = none)) ∧
    (s.infraMode = none → s.selecting = none → s.sourceLatLng ≠ none → s.destLatLng ≠ none →
      ((mapClick s c).1.routeLine = none ∧ (mapClick s c).1.destLatLng = none)) := by
  refine ⟨⟨rfl, rfl⟩, ?_, ?_⟩
  · intro h1 h2 h3
    simp [mapClick, h1, h2, h3]
  · intro h1 h2 h3 h4
    simp [mapClick, h1, h2, h3, h4]

/-- States used to witness the amended C4 clears. -/
def rePickSourceState : UIState :=
  { initState with
    selecting := some .source, sourceLatLng := some ⟨0,0⟩
    destLatLng := some ⟨1,1⟩, routeLine := some [(5,5)] }

def resetClickState : UIState :=
  { initState with
    sourceLatLng := some ⟨0,0⟩, destLatLng := some ⟨1,1⟩
    routeLine := some [(5,5)] }

/-- C4 witness: both synchronous clears at concrete states with a
rendered preview. -/
theorem preview_sync_clear_witness :
    ((mapClick rePickSourceState ⟨2,2⟩).1.routeLine = none ∧
     (mapClick rePickSourceState ⟨2,2⟩).1.destLatLng = none) ∧
    ((mapClick resetClickState ⟨2,2⟩).1.routeLine = none ∧
     (mapClick resetClickState ⟨2,2⟩).1.destLatLng = none) :=
  ⟨(preview_sync_clear rePickSourceState ⟨2,2⟩).2.1 rfl (Or.inl rfl) (by decide),
   (preview_sync_clear resetClickState ⟨2,2⟩).2.2 rfl rfl (by decide) (by decide)⟩

/-- C5 counterexample: pressing the tower-mode button and then the
select-source button leaves both the placement mode and the selection
mode active at once — neither activation clears the other. -/
theorem selection_placement_both_active :
    (runEvents initState [.infraBtn (some .tower), .selSourceBtn]).infraMode
      = some InfraKind.tower ∧
    (runEvents initState [.infraBtn (some .tower), .selSourceBtn]).selecting
      = some SelMode.source := by
  decide

/-- C5 amended: the two mode variables are independent: activating
SelectingSource or SelectingDest sets only `selecting` and leaves any
active placement mode unchanged, and `setInfraMode` sets only the
placement mode and leaves the selection mode unchanged; both can be
active at once (the placement branch then takes precedence on click). -/
theorem mode_variables_independent (s : UIState) (m : Option InfraKind) :
    (selectSourceClick s).infraMode = s.infraMode ∧
    (selectDestClick s).infraMode = s.infraMode ∧
    (setInfraMode s m).selecting = s.selecting ∧
    (selectSourceClick s).selecting = some SelMode.source ∧
    (selectDestClick s).selecting = some SelMode.dest ∧
    (setInfraMode s m).infraMode = m :=
  ⟨rfl, rfl, rfl, rfl, rfl, rfl⟩

/-- C6: a map click in `PlacingInfra(kind)` emits exactly one
add-infrastructure intent of that kind at the clicked coordinate,
leaves the whole interaction state (mode, selection, preview)
unchanged, and a second click emits a second intent with the mode
still `PlacingInfra(kind)` after each. -/
theorem placing_click_emits (s : UIState) (c c' : Coord) (k : InfraKind)
    (h : s.infraMode = some k) :
    (mapClick s c).1 = s ∧
    (mapClick s c).2 = [infraPlaceIntent k c s.towerRadiusValue s.tollFeeValue] ∧
    (mapClick s c).1.infraMode = some k ∧
    (mapClick s c).1.selecting = s.selecting ∧
    (mapClick s c).1.sourceLatLng = s.sourceLatLng ∧
    (mapClick s c).1.destLatLng = s.destLatLng ∧
    (mapClick (mapClick s c).1 c').2
      = [infraPlaceIntent k c' s.towerRadiusValue s.tollFeeValue] ∧
    (mapClick (mapClick s c).1 c').1.infraMode = some k := by
  simp [mapClick, h]

/-- C6 witness: two consecutive clicks in tower mode each emit one
add-tower intent (with the default radius 0.01) and stay in tower mode. -/
theorem placing_click_emits_witness :
    ({ initState with infraMode := some .tower } : UIState).infraMode
      = some InfraKind.tower ∧
    (mapClick { initState with infraMode := some .tower } ⟨3,4⟩).2
      = [infraPlaceIntent .tower ⟨3,4⟩ none none] ∧
    (mapClick (mapClick { initState with infraMode := some .tower } ⟨3,4⟩).1 ⟨5,6⟩).2
      = [infraPlaceIntent .tower ⟨5,6⟩ none none] :=
  ⟨rfl,
   (placing_click_emits { initState with infraMode := some .tower } ⟨3,4⟩ ⟨5,6⟩ .tower rfl).2.1,
   (placing_click_emits { initState with infraMode := some .tower } ⟨3,4⟩ ⟨5,6⟩ .tower rfl).2.2.2.2.2.2.1⟩

/-- C10: a toll-gate placement click sends `fee = parseFloat(input) || null`:
the parsed fee when it is a truthy (nonzero, non-NaN) number and `null`
otherwise; an explicitly entered fee of 0 is sent as `null`, exactly like
an absent or unparsable fee. -/
theorem toll_fee_intent (s : UIState) (c : Coord) (h : s.infraMode = some .toll) :
    (mapClick s c).2 = [Intent.addToll c.lng c.lat (jsOrNull s.tollFeeValue)] ∧
    (∀ q : ℚ, q ≠ 0 → jsOrNull (some q) = some q) ∧
    jsOrNull (some 0) = none ∧
    jsOrNull none = none := by
  refine ⟨by simp [mapClick, h, infraPlaceIntent], ?_, rfl, rfl⟩
  intro q hq
  simp [jsOrNull, hq]

/-- C10 witness: with an entered fee of 0 the emitted add-toll intent
carries a `null` fee. -/
theorem toll_fee_intent_witness :
    ({ initState with infraMode := some .toll, tollFeeValue := some 0 } : UIState).infraMode
      = some InfraKind.toll ∧
    (mapClick { initState with infraMode := some .toll, tollFeeValue := some 0 } ⟨3,4⟩).2
      = [Intent.addToll 4 3 none] := by
  refine ⟨rfl, ?_⟩
  have h := (toll_fee_intent
    { initState with infraMode := some .toll, tollFeeValue := some 0 } ⟨3,4⟩ rfl).1
  simpa using h

/-! ## Density layer renderer (`drawHexes` in MapContainer.jsx) -/

/-- A weighted cell as delivered by the prediction service. -/
structure Tile where
  h3Index : Option String
  lat : Option ℚ
  lon : Option ℚ
  weight : ℚ
deriving DecidableEq, Repr

/-- Embedding of `tiles.map(t => t.weight).sort((a, b) => a - b)`: the
weights in ascending order. -/
def sortedWeights (tiles : List Tile) : List ℚ :=
  (tiles.map (·.weight)).insertionSort (· ≤ ·)

/-- The index computed by the quantile helper `q`:
max(0, Math.min(ws.length - 1, Math.floor(p * (ws.length - 1))))`.
(The JS multiplies by the binary doubles 0.05/0.95; for every length the
resulting floor agrees with the exact rational value used here.) -/
def quantileIdx (n : ℕ) (p : ℚ) : ℕ :=
  (max 0 (min ((n : ℤ) - 1) ⌊p * ((n : ℚ) - 1)⌋)).toNat

/-- The quantile helper `q = p => ws[...]`. -/
def quantile (ws : List ℚ) (p : ℚ) : ℚ :=
  ws.getD (quantileIdx ws.length p) 0

/-- The clip low end `lo = q(0.05)`. -/
def loOf (tiles : List Tile) : ℚ := quantile (sortedWeights tiles) (1/20)

/-- The clip high end `hi = q(0.95)`. -/
def hiOf (tiles : List Tile) : ℚ := quantile (sortedWeights tiles) (19/20)

/-- The divisor `range = (maxW - minW) || 1` (JS `||`: a zero range
becomes 1). -/
def rangeOf (tiles : List Tile) : ℚ :=
  if hiOf tiles - loOf tiles = 0 then 1 else hiOf tiles - loOf tiles

/-- The clamped normalization
`norm = Math.max(0, Math.min(1, (t.weight - minW) / range))`. -/
def normWeight (tiles : List Tile) (w : ℚ) : ℚ :=
  max 0 (min 1 ((w - loOf tiles) / rangeOf tiles))

lemma floor_cast_div_mul (a b m : ℕ) (hb : 0 < b) :
    ⌊((a : ℚ) / (b : ℚ)) * (m : ℚ)⌋ = ((a * m / b : ℕ) : ℤ) := by
  have hb' : (0 : ℚ) < (b : ℚ) := by exact_mod_cast hb
  rw [Int.floor_eq_iff]
  have key := Nat.div_add_mod (a * m) b
  have hmod := Nat.mod_lt (a * m) hb
  constructor
  · rw [div_mul_eq_mul_div, le_div_iff₀ hb']
    have : (a * m / b) * b ≤ a * m := Nat.div_mul_le_self (a * m) b
    exact_mod_cast this
  · rw [div_mul_eq_mul_div, div_lt_iff₀ hb']
    have hlt : a * m < (a * m / b + 1) * b :=
      (Nat.div_lt_iff_lt_mul hb).1 (Nat.lt_succ_self _)
    push_cast
    exact_mod_cast hlt

lemma floor_low (m : ℕ) : ⌊(1/20 : ℚ) * (m : ℚ)⌋ = ((m / 20 : ℕ) : ℤ) := by
  have h : ((1 : ℕ) : ℚ) / ((20 : ℕ) : ℚ) = (1/20 : ℚ) := by norm_num
  rw [← h, floor_cast_div_mul 1 20 m (by norm_num), one_mul]

lemma floor_high (m : ℕ) : ⌊(19/20 : ℚ) * (m : ℚ)⌋ = ((19 * m / 20 : ℕ) : ℤ) := by
  have h : ((19 : ℕ) : ℚ) / ((20 : ℕ) : ℚ) = (19/20 : ℚ) := by norm_num
  rw [← h, floor_cast_div_mul 19 20 m (by norm_num)]

lemma quantileIdx_low (n : ℕ) (hn : 1 ≤ n) : quantileIdx n (1/20) = (n - 1) / 20 := by
  unfold quantileIdx
  have hcast : (n : ℚ) - 1 = ((n - 1 : ℕ) : ℚ) := by
    push_cast [hn]; ring
  rw [hcast, floor_low (n - 1)]
  have h1 : (n - 1) / 20 ≤ n - 1 := Nat.div_le_self _ _
  omega

lemma quantileIdx_high (n : ℕ) (hn : 1 ≤ n) : quantileIdx n (19/20) = 19 * (n - 1) / 20 := by
  unfold quantileIdx
  have hcast : (n : ℚ) - 1 = ((n - 1 : ℕ) : ℚ) := by
    push_cast [hn]; ring
  rw [hcast, floor_high (n - 1)]
  have h1 : 19 * (n - 1) / 20 ≤ n - 1 := by
    calc 19 * (n - 1) / 20 ≤ 20 * (n - 1) / 20 :=
          Nat.div_le_div_right (Nat.mul_le_mul_right _ (by norm_num))
    _ = n - 1 := Nat.mul_div_cancel_left _ (by norm_num)
  omega

lemma length_sortedWeights (tiles : List Tile) :
    (sortedWeights tiles).length = tiles.length := by
  unfold sortedWeights
  rw [(List.perm_insertionSort _ _).length_eq, List.length_map]

lemma lo_le_hi (tiles : List Tile) (hne : tiles ≠ []) : loOf tiles ≤ hiOf tiles := by
  have hn : 1 ≤ tiles.length := List.length_pos.2 hne
  have hlen : (sortedWeights tiles).length = tiles.length := length_sortedWeights tiles
  have hsorted : (sortedWeights tiles).Sorted (· ≤ ·) := List.sorted_insertionSort _ _
  unfold loOf hiOf quantile
  rw [hlen, quantileIdx_low _ hn, quantileIdx_high _ hn]
  have hi1 : (tiles.length - 1) / 20 < (sortedWeights tiles).length := by
    rw [hlen]
    have := Nat.div_le_self (tiles.length - 1) 20
    omega
  have hi2 : 19 * (tiles.length - 1) / 20 < (sortedWeights tiles).length := by
    rw [hlen]
    have : 19 * (tiles.length - 1) / 20 ≤ 20 * (tiles.length - 1) / 20 :=
      Nat.div_le_div_right (Nat.mul_le_mul_right _ (by norm_num))
    rw [Nat.mul_div_cancel_left _ (by norm_num : 0 < 20)] at this
    omega
  rw [List.getD_eq_getElem _ _ hi1, List.getD_eq_getElem _ _ hi2]
  have hij : (tiles.length - 1) / 20 ≤ 19 * (tiles.length - 1) / 20 :=
    Nat.div_le_div_right (Nat.le_mul_of_pos_left _ (by norm_num))
  exact hsorted.rel_get_of_le (a := ⟨_, hi1⟩) (b := ⟨_, hi2⟩) hij

lemma rangeOf_pos (tiles : List Tile) (hne : tiles ≠ []) : 0 < rangeOf tiles := by
  unfold rangeOf
  by_cases h : hiOf tiles - loOf tiles = 0
  · simp [h]
  · rw [if_neg h]
    have := lo_le_hi tiles hne
    have : 0 ≤ hiOf tiles - loOf tiles := by linarith
    rcases lt_or_eq_of_le this with h' | h'
    · exact h'
    · exact absurd h'.symm h

/-- The 1..100 weight list of the spec's worked example. -/
def tiles100 : List Tile :=
  (List.range 100).map (fun i => ⟨none, none, none, (i : ℚ) + 1⟩)

lemma weights_tiles100 :
    tiles100.map (·.weight) = (List.range 100).map (fun i : ℕ => (i : ℚ) + 1) := by
  unfold tiles100
  rw [List.map_map]
  rfl

lemma sorted_range100 :
    ((List.range 100).map (fun i : ℕ => (i : ℚ) + 1)).Sorted (· ≤ ·) := by
  refine List.Pairwise.map _ ?_ (List.pairwise_lt_range 100)
  intro a b hab
  have h : (a : ℚ) < (b : ℚ) := by exact_mod_cast hab
  linarith

lemma sortedWeights_tiles100 :
    sortedWeights tiles100 = (List.range 100).map (fun i : ℕ => (i : ℚ) + 1) := by
  unfold sortedWeights
  rw [weights_tiles100]
  exact List.Sorted.insertionSort_eq sorted_range100

lemma tiles100_lo : loOf tiles100 = 5 := by
  unfold loOf quantile
  rw [sortedWeights_tiles100]
  have hlen : ((List.range 100).map (fun i : ℕ => (i : ℚ) + 1)).length = 100 := by simp
  rw [hlen, quantileIdx_low 100 (by norm_num)]
  rw [List.getD_eq_getElem _ _ (by simp)]
  rw [List.getElem_map, List.getElem_range]
  norm_num

lemma tiles100_hi : hiOf tiles100 = 95 := by
  unfold hiOf quantile
  rw [sortedWeights_tiles100]
  have hlen : ((List.range 100).map (fun i : ℕ => (i : ℚ) + 1)).length = 100 := by simp
  rw [hlen, quantileIdx_high 100 (by norm_num)]
  rw [List.getD_eq_getElem _ _ (by simp)]
  rw [List.getElem_map, List.getElem_range]
  norm_num

lemma tiles100_norms :
    loOf tiles100 = 5 ∧ hiOf tiles100 = 95 ∧
    normWeight tiles100 1 = 0 ∧ normWeight tiles100 100 = 1 ∧
    normWeight tiles100 4 = 0 ∧ normWeight tiles100 96 = 1 := by
  have hlo := tiles100_lo
  have hhi := tiles100_hi
  have hrange : rangeOf tiles100 = 90 := by
    unfold rangeOf; rw [hlo, hhi]; norm_num
  refine ⟨hlo, hhi, ?_, ?_, ?_, ?_⟩ <;>
    · unfold normWeight
      rw [hlo, hrange]
      norm_num [min_def, max_def]

/-- C7: the density normalization: `lo`/`hi` are the sorted weights at
the (clamped) indices `⌊0.05·(N−1)⌋` and `⌊0.95·(N−1)⌋`, the sorted
list is an ascending permutation of the weights, each weight maps to
`clamp((w − lo)/range, 0, 1)`, weights at or below `lo` saturate to 0
and weights at or above `hi` saturate to 1, and for the weights 1..100
this gives `lo = 5`, `hi = 95`, `normalized(1) = 0`, `normalized(100) = 1`,
with out-of-clip weights such as 4 and 96 saturating. -/
theorem density_normalization (tiles : List Tile) (hne : tiles ≠ []) :
    (loOf tiles = (sortedWeights tiles).getD ((tiles.length - 1) / 20) 0 ∧
     hiOf tiles = (sortedWeights tiles).getD (19 * (tiles.length - 1) / 20) 0) ∧
    ((sortedWeights tiles).Sorted (· ≤ ·) ∧
     (sortedWeights tiles).Perm (tiles.map (·.weight))) ∧
    (∀ w : ℚ, normWeight tiles w = max 0 (min 1 ((w - loOf tiles) / rangeOf tiles))) ∧
    (∀ w : ℚ, w ≤ loOf tiles → normWeight tiles w = 0) ∧
    (∀ w : ℚ, hiOf tiles ≤ w → loOf tiles < hiOf tiles → normWeight tiles w = 1) ∧
    (loOf tiles100 = 5 ∧ hiOf tiles100 = 95 ∧
     normWeight tiles100 1 = 0 ∧ normWeight tiles100 100 = 1 ∧
     normWeight tiles100 4 = 0 ∧ normWeight tiles100 96 = 1) := by
  have hn : 1 ≤ tiles.length := List.length_pos.2 hne
  have hlen := length_sortedWeights tiles
  refine ⟨⟨?_, ?_⟩, ⟨List.sorted_insertionSort _ _, List.perm_insertionSort _ _⟩,
    fun w => rfl, ?_, ?_, tiles100_norms⟩
  · unfold loOf quantile
    rw [hlen, quantileIdx_low _ hn]
  · unfold hiOf quantile
    rw [hlen, quantileIdx_high _ hn]
  · intro w hw
    have hr := rangeOf_pos tiles hne
    have hnum : (w - loOf tiles) / rangeOf tiles ≤ 0 :=
      div_nonpos_of_nonpos_of_nonneg (by linarith) (le_of_lt hr)
    unfold normWeight
    rw [min_eq_right (by linarith), max_eq_left (by linarith)]
  · intro w hw hlt
    have hrange : rangeOf tiles = hiOf tiles - loOf tiles := by
      unfold rangeOf
      rw [if_neg (by linarith)]
    have hr : 0 < hiOf tiles - loOf tiles := by linarith
    have hnum : (1 : ℚ) ≤ (w - loOf tiles) / rangeOf tiles := by
      rw [hrange, le_div_iff₀ hr]
      linarith
    unfold normWeight
    rw [min_eq_left hnum, max_eq_right (by norm_num)]

/-- C7 witness: the theorem applied to the 1..100 example. -/
theorem density_normalization_witness :
    tiles100 ≠ [] ∧
    (loOf tiles100 = 5 ∧ hiOf tiles100 = 95 ∧
     normWeight tiles100 1 = 0 ∧ normWeight tiles100 100 = 1 ∧
     normWeight tiles100 4 = 0 ∧ normWeight tiles100 96 = 1) :=
  ⟨by decide, (density_normalization tiles100 (by decide)).2.2.2.2.2⟩

/-! ## Infrastructure overlay refresh (`loadInfrastructure`) and
prediction fetch (`runPrediction`) -/

/-- One entry of the `/infra-stats` response, gateway kind. -/
structure GatewayStat where
  id : String
  name : Option String
  lat : ℚ
  lon : ℚ
  nearbyAgents : ℕ
deriving DecidableEq, Repr

/-- One entry of the `/infra-stats` response, mobile-tower kind
(`radius` is the coverage radius in degrees; `0` is JS-falsy). -/
structure TowerStat where
  id : String
  name : Option String
  lat : ℚ
  lon : ℚ
  nearbyAgents : ℕ
  radius : ℚ
deriving DecidableEq, Repr

/-- One entry of the `/infra-stats` response, toll-gate kind. -/
structure TollStat where
  id : String
  name : Option String
  lat : ℚ
  lon : ℚ
  nearbyAgents : ℕ
  fee : Option ℚ
deriving DecidableEq, Repr

/-- The aggregated `/infra-stats` payload (`snap.gateways || []` etc.:
a missing list renders as empty). -/
structure InfraStats where
  gateways : List GatewayStat := []
  mobileTowers : List TowerStat := []
  tollGates : List TollStat := []
deriving DecidableEq, Repr

/-- A Leaflet layer element drawn by the overlay. -/
inductive InfraItem where
  | circleMarker (lat lon : ℚ)
  | circle (lat lon radiusMeters : ℚ)
deriving DecidableEq, Repr

/-- The three infrastructure layer groups (`infraLayers`). -/
structure InfraLayers where
  gateways : List InfraItem := []
  tower : List InfraItem := []
  toll : List InfraItem := []
deriving DecidableEq, Repr

def degreesToMetersLat (deg : ℚ) : ℚ := deg * 111000

/-- The rebuild part of `loadInfrastructure`: one circle marker per
entry; towers additionally draw a coverage circle when `t.radius` is
truthy. -/
def renderInfraStats (snap : InfraStats) : InfraLayers :=
  { gateways := snap.gateways.map (fun g => .circleMarker g.lat g.lon)
    tower := snap.mobileTowers.flatMap (fun t =>
      InfraItem.circleMarker t.lat t.lon ::
        (if t.radius ≠ 0 then [InfraItem.circle t.lat t.lon (degreesToMetersLat t.radius)]
         else []))
    toll := snap.tollGates.map (fun tg => .circleMarker tg.lat tg.lon) }

/-- Embedding of `loadInfrastructure()`: the fetch result is `none` on
a network/parse failure (the inner `.catch(() => null)`).
`clearInfraLayers()` runs before the `if (snap)` check, so a failed
fetch leaves all three layers empty instead of restoring the previous
rendering. -/
def loadInfrastructure (_prev : InfraLayers) (fetchResult : Option InfraStats) :
    InfraLayers :=
  match fetchResult with
  | none => {}
  | some snap => renderInfraStats snap

/-- Outcome of the prediction fetch in `runPrediction`: `failure`
covers network errors, non-ok HTTP statuses and JSON parse errors (all
reach the `catch` block); `success` carries `data.tiles` (absent when
the response has no `tiles` field) and `data.total_weight`. -/
inductive PredictOutcome where
  | failure (msg : String)
  | success (tiles : Option (List Tile)) (totalWeight : Option ℚ)
deriving DecidableEq, Repr

/-- The status line set by `runPrediction`. -/
inductive PredictStatus where
  | predicting
  | rendered (n : ℕ) (totalWeight : Option ℚ)
  | noTiles
  | error (msg : String)
deriving DecidableEq, Repr

/-- An element drawn on the hex layer by `drawHexes`. -/
inductive HexItem where
  | polygon (boundary : List (ℚ × ℚ)) (norm : ℚ)
  | circle (lat lon radius norm : ℚ)
deriving DecidableEq, Repr

/-- JS truthiness of a possibly missing number (`0` and `NaN`/absent
are falsy). -/
def jsTruthy (x : Option ℚ) : Bool :=
  match x with
  | some v => v ≠ 0
  | none => false

/-- Embedding of `drawHexes(tiles)`.  `decodeH3` models `window.h3`:
`none` when the H3 library is unavailable, otherwise the boundary
decoder (whose per-tile failure is caught and skips the tile).  With no
H3 path a tile falls back to a circle of radius `50 + norm * 200` when
it has truthy `lat` and `lon`. -/
def drawHexes (decodeH3 : Option (String → Option (List (ℚ × ℚ))))
    (tiles : List Tile) : List HexItem :=
  if tiles = [] then []
  else
    tiles.flatMap (fun t =>
      match decodeH3, t.h3Index with
      | some dec, some idx =>
        match dec idx with
        | some boundary => [HexItem.polygon boundary (normWeight tiles t.weight)]
        | none => []
      | _, _ =>
        if jsTruthy t.lat ∧ jsTruthy t.lon then
          [HexItem.circle (t.lat.getD 0) (t.lon.getD 0)
            (50 + normWeight tiles t.weight * 200) (normWeight tiles t.weight)]
        else [])

/-- Embedding of `runPrediction()`: on failure the hex layer is left
untouched and only the status changes; on success with a non-empty
tile list the layer is rebuilt; with no tiles the layer is also left
untouched, with a warning status. -/
def runPrediction (decodeH3 : Option (String → Option (List (ℚ × ℚ))))
    (hexLayer : List HexItem) (outcome : PredictOutcome) :
    List HexItem × PredictStatus :=
  match outcome with
  | .failure msg => (hexLayer, .error msg)
  | .success tilesOpt tw =>
    match tilesOpt with
    | some tiles =>
      if tiles ≠ [] then (drawHexes decodeH3 tiles, .rendered tiles.length tw)
      else (hexLayer, .noTiles)
    | none => (hexLayer, .noTiles)

/-- The stats payload of a successful refresh that rendered one
gateway. -/
def oneGatewayStats : InfraStats :=
  { gateways := [{ id := "g1", name := none, lat := 1, lon := 2, nearbyAgents := 0 }] }

/-- C9 counterexample: after a successful refresh has drawn a gateway
marker, a failed `/infra-stats` fetch clears the gateway layer — the
previously rendered infrastructure is destroyed, not left untouched. -/
theorem infra_refresh_failure_clears :
    (loadInfrastructure (loadInfrastructure {} (some oneGatewayStats)) none).gateways
      = [] ∧
    (loadInfrastructure {} (some oneGatewayStats)).gateways ≠ [] := by
  decide

/-- C9 amended: a failed density-prediction fetch leaves the hex layer
untouched and surfaces only as a status message, but a failed
infrastructure-stats fetch clears all three infrastructure layers
(the previous rendering is lost until a later successful refresh). -/
theorem transport_failure_behaviour
    (decodeH3 : Option (String → Option (List (ℚ × ℚ))))
    (hexLayer : List HexItem) (msg : String) :
    runPrediction decodeH3 hexLayer (.failure msg) = (hexLayer, .error msg) ∧
    (∀ prev : InfraLayers, loadInfrastructure prev none = ({} : InfraLayers)) :=
  ⟨rfl, fun _ => rfl⟩

end MP
